import Mathlib

set_option autoImplicit false

/-!
Shallow embedding of the EasyFigAssembler backend core (`src/app/routes.py`):
the `/api/export-<format>` handler (`export_figure`, with its multipart and
legacy data-URL input paths) and the `/api/convert-tiff` handler
(`convert_tiff_to_png`, with its two-tier decode strategy and the `to_uint8`
normalization helper).

External library calls (PIL decode/encode, `int(...)` parsing, `base64`
decoding, `tifffile` parsing) are modelled as abstract outcomes carried by the
request value; the route's own control flow, validation, clamping, mode
conversion, stream seeking and numeric normalization are translated directly
from the source.  Pixel values use exact rationals in place of `float32`.
-/

namespace EasyFig

/-- Raw byte buffers, modelled as lists of naturals. -/
abbrev Bytes := List Nat

/-- Outcome of Python `int(...)` applied to a request-supplied value:
an integer, or a `ValueError`/`TypeError`. -/
inductive IntParse where
  | ok (n : Int)
  | err
deriving DecidableEq

/-- A decoded PIL image; only the attributes the routes inspect are kept. -/
structure PILImage where
  mode : String
  nFrames : Nat
deriving DecidableEq

/-- PIL `img.convert(m)`: a copy of the image in the target mode. -/
def convertMode (img : PILImage) (m : String) : PILImage :=
  { img with mode := m }

/-- Outcome of `Image.open` (plus `img.load()` on the export path). -/
inductive DecodeOutcome where
  | ok (img : PILImage)
  | unidentified
  | err (e : String)
deriving DecidableEq

/-- An uploaded file on the export path; carries the outcome PIL produces
for its stream. -/
structure Upload where
  openOutcome : DecodeOutcome
deriving DecidableEq

/-- JSON response bodies, restricted to the shapes routes.py produces. -/
inductive RespBody where
  | errBody (error : String) (details : String)
  | errOnly (error : String)
  | okB64 (fmt : String) (payload : Bytes)
  | fileBody (mimetype : String) (downloadName : String) (cacheControl : String)
deriving DecidableEq

/-- An HTTP response: status code plus body. -/
structure HttpResp where
  status : Nat
  body : RespBody
deriving DecidableEq

/-- The `{'error': 'Export failed', 'details': d}` bodies of `export_figure`. -/
def errResp (status : Nat) (details : String) : HttpResp :=
  ⟨status, .errBody "Export failed" details⟩

/-- A record of an `img.save(...)` invocation: the image object passed to the
encoder and the keyword arguments, mirroring routes.py lines 96-103/156-163. -/
structure SaveCall where
  fileFormat : String
  img : PILImage
  dpi : Option Int
  resolution : Option Int
  quality : Option Int
  compression : Option String
deriving DecidableEq

/-- Format dispatch of the save call (routes.py lines 96-103 and 156-163). -/
def doSave (fmt : String) (img : PILImage) (dpi : Int) (quality : Int) : SaveCall :=
  if fmt = "tiff" then ⟨"TIFF", img, some dpi, none, none, some "tiff_lzw"⟩
  else if fmt = "pdf" then ⟨"PDF", img, none, some dpi, none, none⟩
  else if fmt = "jpeg" then ⟨"JPEG", img, some dpi, none, some quality, none⟩
  else ⟨"PNG", img, some dpi, none, none, none⟩

/-- The resolution a save call embeds: the `dpi=(dpi, dpi)` pair for
TIFF/JPEG/PNG, or the `resolution=dpi` parameter for PDF. -/
def effDpi (c : SaveCall) : Option Int :=
  match c.dpi with
  | some d => some d
  | none => c.resolution

/-- The `mime_map` dictionary of routes.py. -/
def mimeMap (fmt : String) : String :=
  if fmt = "png" then "image/png"
  else if fmt = "jpeg" then "image/jpeg"
  else if fmt = "tiff" then "image/tiff"
  else "application/pdf"

/-- Result of running a route handler: the HTTP response (or, when an
exception escapes the handler uncaught, `Except.error`), the `img.save`
invocation that was attempted (if any), and the server-side log entries. -/
structure HandlerOut where
  outcome : Except String HttpResp
  saveCall : Option SaveCall
  logs : List String

/-- Python `str.replace('jpg', 'jpeg')`, specialised to its fixed pattern:
every non-overlapping occurrence of `jpg`, scanned left to right, is replaced
by `jpeg`.  Lists shorter than the pattern cannot contain an occurrence. -/
def replaceJpg : List Char → List Char
  | [] => []
  | [c] => [c]
  | [c, d] => [c, d]
  | c :: d :: e :: rest =>
    if c = 'j' ∧ d = 'p' ∧ e = 'g' then 'j' :: 'p' :: 'e' :: 'g' :: replaceJpg rest
    else c :: replaceJpg (d :: e :: rest)

/-- Line 56 of routes.py: `format.lower().replace('jpg', 'jpeg')`. -/
def fmtNorm (s : String) : String :=
  String.mk (replaceJpg (s.data.map Char.toLower))

/-- Line 57-58: membership in `allowed = {'png', 'jpeg', 'tiff', 'pdf'}`. -/
def fmtAllowed (fmt : String) : Bool :=
  fmt == "png" || fmt == "jpeg" || fmt == "tiff" || fmt == "pdf"

/-- Form-field integer parsing with a default: `int(request.form.get(k, d))`
(and `int(data.get(k, d))` on the legacy path, where `TypeError` is also
caught).  A missing field parses as the default; a parse failure is caught by
the surrounding `try`/`except` which substitutes the default. -/
def formInt (field : Option IntParse) (dflt : Int) : Int :=
  match field with
  | some (.ok n) => n
  | some .err => dflt
  | none => dflt

/-- A multipart export request: the uploaded file (or an exception from
fetching it, caught only by the path's outer handler), the `dpi` and
`quality` form fields, the outcome of `img.save`, the bytes the encoder
produced on success, and the `?mode=json` query flag. -/
structure MultipartReq where
  filesImage : Except String (Option Upload)
  dpiField : Option IntParse
  qualityField : Option IntParse
  saveExc : Option String
  savedBytes : Bytes
  modeJson : Bool

/-- Body of the multipart pathway (routes.py lines 65-115), inside the
outer `try`.  `Except.error` is an exception reaching the outer handler. -/
def multipartBody (fmt : String) (r : MultipartReq) :
    Except String (HttpResp × Option SaveCall × List String) :=
  match r.filesImage with
  | .error e => .error e
  | .ok none => .ok (errResp 400 "missing_file", none, [])
  | .ok (some up) =>
    match up.openOutcome with
    | .unidentified => .ok (errResp 400 "unidentified_image", none, [])
    | .err e => .ok (errResp 400 ("image_open:" ++ e), none, [])
    | .ok img0 =>
      let dpi := max 50 (min 2400 (formInt r.dpiField 600))
      let quality :=
        if fmt = "jpeg" then max 40 (min 95 (formInt r.qualityField 90)) else 90
      let img :=
        if img0.mode = "RGBA" ∧ (fmt = "jpeg" ∨ fmt = "tiff" ∨ fmt = "pdf") then
          convertMode img0 "RGB"
        else img0
      let call := doSave fmt img dpi quality
      match r.saveExc with
      | some e =>
        .ok (errResp 500 ("save_failed:" ++ e), some call,
          ["Pillow save failed (multipart)"])
      | none =>
        if r.modeJson then
          .ok (⟨200, .okB64 fmt r.savedBytes⟩, some call, [])
        else
          .ok (⟨200, .fileBody (mimeMap fmt) ("figure." ++ fmt) "no-transform"⟩,
            some call, [])

/-- The multipart pathway with its catch-all `except Exception` (lines
116-118): any uncaught exception becomes a 500 with code
`multipart_unhandled`. -/
def multipartHandler (fmt : String) (r : MultipartReq) : HandlerOut :=
  match multipartBody fmt r with
  | .ok (resp, call, logs) => ⟨.ok resp, call, logs⟩
  | .error _ =>
    ⟨.ok (errResp 500 "multipart_unhandled"), none,
      ["Unhandled multipart export error"]⟩

/-- The value `request.get_json` returned: a dict (with the fields the route
reads, plus a `quality` field the legacy path never reads), a falsy value
(`None`, `{}`, `[]`, ...), or a truthy non-dict value (a nonempty list,
a string, a number, ...). -/
inductive JsonVal where
  | jdict (canvasDataUrl : Option String) (dpiField : Option IntParse)
      (qualityField : Option IntParse)
  | jfalsy
  | jtruthyNonDict
deriving DecidableEq

/-- A legacy (JSON data-URL) export request. -/
structure LegacyReq where
  jsonBody : Except String JsonVal
  b64Outcome : Except String Bytes
  openOutcome : DecodeOutcome
  saveExc : Option String
  savedBytes : Bytes
  modeJson : Bool

/-- Legacy pathway continuation once `data` is known to be a dict (routes.py
lines 126-176). -/
def legacyDict (fmt : String) (r : LegacyReq) (url : Option String)
    (dpiF : Option IntParse) : HandlerOut :=
  match url with
  | none => ⟨.ok (errResp 400 "missing_or_invalid_canvasDataUrl"), none, []⟩
  | some u =>
    if u.data = [] ∨ ¬ (',' ∈ u.data) then
      ⟨.ok (errResp 400 "missing_or_invalid_canvasDataUrl"), none, []⟩
    else
      match r.b64Outcome with
      | .error e => ⟨.ok (errResp 400 ("base64_decode:" ++ e)), none, []⟩
      | .ok _bytes =>
        match r.openOutcome with
        | .unidentified => ⟨.ok (errResp 400 "unidentified_image"), none, []⟩
        | .err e => ⟨.ok (errResp 400 ("image_open:" ++ e)), none, []⟩
        | .ok img0 =>
          let dpi := max 50 (min 2400 (formInt dpiF 600))
          let img :=
            if img0.mode = "RGBA" ∧ (fmt = "jpeg" ∨ fmt = "tiff" ∨ fmt = "pdf") then
              convertMode img0 "RGB"
            else img0
          let call := doSave fmt img dpi 95
          match r.saveExc with
          | some e =>
            ⟨.ok (errResp 500 ("save_failed:" ++ e)), some call,
              ["Pillow save failed (legacy)"]⟩
          | none =>
            if r.modeJson then
              ⟨.ok ⟨200, .okB64 fmt r.savedBytes⟩, some call, []⟩
            else
              ⟨.ok ⟨200, .fileBody (mimeMap fmt) ("figure." ++ fmt) "no-transform"⟩,
                some call, []⟩

/-- The legacy pathway (routes.py lines 121-176).  It has no catch-all:
`data = request.get_json(...) or {}` substitutes `{}` for a falsy body, but a
truthy non-dict body makes `data.get('canvasDataUrl')` raise an uncaught
`AttributeError` that escapes the handler. -/
def legacyHandler (fmt : String) (r : LegacyReq) : HandlerOut :=
  match r.jsonBody with
  | .error e => ⟨.ok (errResp 400 ("bad_json:" ++ e)), none, []⟩
  | .ok v =>
    match v with
    | .jfalsy => legacyDict fmt r none none
    | .jtruthyNonDict =>
      ⟨.error "AttributeError: object has no attribute get", none, []⟩
    | .jdict url dpiF _qF => legacyDict fmt r url dpiF

/-- An export request on one of the two content-type pathways. -/
inductive ExportReq where
  | multipart (m : MultipartReq)
  | legacy (l : LegacyReq)

/-- The `/api/export-<format>` handler (routes.py lines 54-176): normalize the
format name, reject anything outside the allowed set before touching the
body, then dispatch on the content type. -/
def export_figure (format : String) (req : ExportReq) : HandlerOut :=
  let fmt := fmtNorm format
  if fmtAllowed fmt then
    match req with
    | .multipart m => multipartHandler fmt m
    | .legacy l => legacyHandler fmt l
  else
    ⟨.ok (errResp 400 ("unsupported format: " ++ fmt)), none, []⟩

/-- A seekable in-memory stream over a byte buffer. -/
structure StreamState where
  buf : Bytes
  pos : Nat
deriving DecidableEq

/-- Python `stream.seek(n)`. -/
def seekStream (s : StreamState) (n : Nat) : StreamState :=
  ⟨s.buf, n⟩

/-- Reading the stream from its current position to the end. -/
def readAll (s : StreamState) : Bytes :=
  s.buf.drop s.pos

/-- A TIFF upload: its full byte buffer, the outcome PIL produces for it,
and the stream position PIL leaves behind after consuming (part of) it. -/
structure TiffUpload where
  buf : Bytes
  pilOutcome : DecodeOutcome
  posAfterPil : Nat

/-- The dtype check `a.dtype == np.uint8` needs: 8-bit unsigned, or anything
else (signed/wider integers, floats). -/
inductive Dtype where
  | uint8
  | other
deriving DecidableEq

/-- A numpy array as `tifffile` returns it: dtype, shape, and the flattened
sample values.  `float32` samples are idealized as exact rationals. -/
structure NpArr where
  dtype : Dtype
  shape : List Nat
  vals : List ℚ
deriving DecidableEq

/-- `float(a.min())`: minimum over all samples. -/
def npMin (a : NpArr) : ℚ :=
  (a.vals.min?).getD 0

/-- `float(a.max())`: maximum over all samples. -/
def npMax (a : NpArr) : ℚ :=
  (a.vals.max?).getD 0

/-- The `to_uint8` helper of `convert_tiff_to_png` (routes.py lines 243-252):
pass 8-bit unsigned arrays through; otherwise compute min/max over all
samples, return `np.zeros_like(a, dtype=np.uint8)` when `not (mx > mn)`, and
otherwise rescale linearly by `(a - mn) * (255.0 / (mx - mn))`, clip to
`[0, 255]` and truncate to `uint8`. -/
def to_uint8 (a : NpArr) : NpArr :=
  if a.dtype = Dtype.uint8 then a
  else if ¬ (npMin a < npMax a) then
    ⟨Dtype.uint8, a.shape, a.vals.map fun _ => 0⟩
  else
    ⟨Dtype.uint8, a.shape,
      a.vals.map fun x =>
        ((⌊min 255 (max 0 ((x - npMin a) * (255 / (npMax a - npMin a))))⌋ : ℤ) : ℚ)⟩

/-- `np.squeeze`: drop every axis of size 1. -/
def squeezeShape (s : List Nat) : List Nat :=
  s.filter fun d => d ≠ 1

/-- Channel-layout selection of routes.py lines 255-270, at the level of
array shapes: the (possibly reshaped) shape together with the PIL mode
string handed to `Image.fromarray`. -/
def pickMode (s : List Nat) : List Nat × String :=
  if s.length = 2 then (s, "L")
  else if s.length = 3 ∧ (s.getD 2 0 = 3 ∨ s.getD 2 0 = 4) then
    (s, if s.getD 2 0 = 3 then "RGB" else "RGBA")
  else if s.length = 3 ∧ (s.getD 0 0 = 3 ∨ s.getD 0 0 = 4) then
    let s2 := s.drop 1 ++ [s.getD 0 0]
    (s2, if s2.getD 2 0 = 3 then "RGB" else "RGBA")
  else
    let s2 := squeezeShape s
    if s2.length ≠ 2 then (s2.dropLast, "L") else (s2, "L")

/-- A `/api/convert-tiff` request, with the outcomes of each external call:
fetching the upload, the tier-1 PNG encode, availability of the optional
`numpy`/`tifffile` dependencies, the tag-based parse (`TiffFile.asarray`),
`Image.fromarray`, and the tier-2 PNG encode. -/
structure TiffReq where
  filesImage : Except String (Option TiffUpload)
  tier1SaveExc : Option String
  tier1Png : Bytes
  depsAvailable : Bool
  tagRead : Except String NpArr
  fromArrayExc : Option String
  tier2SaveExc : Option String
  tier2Png : Bytes

/-- Result of tier 1 (the PIL attempt, routes.py lines 202-227): success with
the normalized image and encoded PNG, a silent fall-through
(`UnidentifiedImageError`), or a logged fall-through (any other exception,
including an exception from `img.save`). -/
inductive Tier1Res where
  | success (img : PILImage) (png : Bytes)
  | fallSilent
  | fallLog (e : String)
deriving DecidableEq

/-- Tier 1 of `convert_tiff_to_png`: open with PIL (the multi-frame
`img.seek(0)` is wrapped in `try ... pass` and cannot escape), normalize any
mode outside RGB/RGBA to RGB, and encode as PNG. -/
def runTier1 (r : TiffReq) (up : TiffUpload) : Tier1Res :=
  match up.pilOutcome with
  | .ok img0 =>
    let img :=
      if ¬ (img0.mode = "RGB" ∨ img0.mode = "RGBA") then convertMode img0 "RGB"
      else img0
    match r.tier1SaveExc with
    | some e => .fallLog e
    | none => .success img r.tier1Png
  | .unidentified => .fallSilent
  | .err e => .fallLog e

/-- Whether a tier-1 result falls through to the tifffile fallback. -/
def tier1Falls (t : Tier1Res) : Bool :=
  match t with
  | .success _ _ => false
  | .fallSilent => true
  | .fallLog _ => true

/-- Tier 2 of `convert_tiff_to_png` (the body of the `try` at routes.py
lines 237-279): read the full pixel array with the tag-based reader,
normalize it with `to_uint8`, pick a channel layout, build a PIL image and
encode it as PNG.  `Except.error` is an exception inside the tier. -/
def runTier2 (r : TiffReq) : Except String Bytes :=
  match r.tagRead with
  | .error e => .error e
  | .ok arr0 =>
    let arr := to_uint8 arr0
    let pm := pickMode arr.shape
    match r.fromArrayExc with
    | some e => .error e
    | none =>
      let pil := PILImage.mk pm.2 1
      let _pil2 :=
        if ¬ (pil.mode = "RGB" ∨ pil.mode = "RGBA") then convertMode pil "RGB"
        else pil
      match r.tier2SaveExc with
      | some e => .error e
      | none => .ok r.tier2Png

/-- Result of the convert-tiff handler: the HTTP response, the byte sequence
handed to the tag-based reader (`none` when `tifffile.TiffFile` was never
invoked), and the server-side log entries. -/
structure TiffOut where
  resp : HttpResp
  tagInput : Option Bytes
  logs : List String

/-- The tifffile fallback (routes.py lines 229-282): fail fast when the
optional dependencies are missing; otherwise `upload.stream.seek(0)`, hand
the stream to `tifffile.TiffFile`, and run tier 2. -/
def tiffFallback (r : TiffReq) (up : TiffUpload) (logs1 : List String) :
    Except String (HttpResp × Option Bytes × List String) :=
  if ¬ r.depsAvailable then
    .ok (⟨500, .errBody "tiff_decode_failed" "server_missing_tifffile"⟩, none,
      logs1 ++ ["tifffile or numpy not available for TIFF conversion fallback"])
  else
    let st := seekStream (StreamState.mk up.buf up.posAfterPil) 0
    let input := readAll st
    match runTier2 r with
    | .ok png => .ok (⟨200, .okB64 "png" png⟩, some input, logs1)
    | .error _ =>
      .ok (⟨500, .errOnly "tiff_decode_failed"⟩, some input,
        logs1 ++ ["TIFF conversion failed (tifffile fallback)"])

/-- Body of `convert_tiff_to_png` inside its outer `try` (routes.py lines
197-282). -/
def tiffBody (r : TiffReq) : Except String (HttpResp × Option Bytes × List String) :=
  match r.filesImage with
  | .error e => .error e
  | .ok none => .ok (⟨400, .errOnly "missing_file"⟩, none, [])
  | .ok (some up) =>
    match runTier1 r up with
    | .success _ png => .ok (⟨200, .okB64 "png" png⟩, none, [])
    | .fallSilent => tiffFallback r up []
    | .fallLog e =>
      tiffFallback r up ["Pillow TIFF open failed, trying tifffile: " ++ e]

/-- The `/api/convert-tiff` handler (routes.py lines 190-285), with its outer
catch-all turning any uncaught exception into a 500 with the fixed code
`unhandled`. -/
def convert_tiff_to_png (r : TiffReq) : TiffOut :=
  match tiffBody r with
  | .ok (resp, input, logs) => ⟨resp, input, logs⟩
  | .error _ => ⟨⟨500, .errOnly "unhandled"⟩, none, ["Unhandled convert-tiff error"]⟩

/-! Concrete inputs used by the witness and counterexample theorems below. -/

/-- A decoded RGBA image. -/
def imgRGBA : PILImage := ⟨"RGBA", 1⟩

/-- A decoded RGB image. -/
def imgRGB : PILImage := ⟨"RGB", 1⟩

/-- An upload that decodes to the RGBA image. -/
def upRGBA : Upload := ⟨.ok imgRGBA⟩

/-- An upload that decodes to the RGB image. -/
def upRGB : Upload := ⟨.ok imgRGB⟩

/-- Multipart request: RGBA upload, `dpi=10`, no quality, save succeeds. -/
def mReqC1 : MultipartReq := ⟨.ok (some upRGBA), some (.ok 10), none, none, [], true⟩

/-- The save call `mReqC1` produces when exported as `JPG`. -/
def callC1 : SaveCall := ⟨"JPEG", ⟨"RGB", 1⟩, some 50, none, some 90, none⟩

/-- Multipart request: RGB upload, `dpi=10`. -/
def mReqC2 : MultipartReq := ⟨.ok (some upRGB), some (.ok 10), none, none, [], true⟩

/-- The save call `mReqC2` produces when exported as `png`. -/
def callC2 : SaveCall := ⟨"PNG", imgRGB, some 50, none, none, none⟩

/-- Multipart request: RGB upload, no dpi, `quality=999`. -/
def mReqC3 : MultipartReq := ⟨.ok (some upRGB), none, some (.ok 999), none, [], true⟩

/-- The save call `mReqC3` produces when exported as `jpeg`. -/
def callC3 : SaveCall := ⟨"JPEG", imgRGB, some 600, none, some 95, none⟩

/-- A multipart request with no file attached. -/
def mReqC6 : MultipartReq := ⟨.ok none, none, none, none, [], false⟩

/-- Multipart request: RGB upload whose save raises `boom`. -/
def mReqC8 : MultipartReq := ⟨.ok (some upRGB), none, none, some "boom", [], true⟩

/-- Multipart request whose file fetch itself raises. -/
def mReqC9 : MultipartReq := ⟨.error "io error", none, none, none, [], false⟩

/-- Legacy request whose JSON body is a truthy non-dict value. -/
def lReqC9 : LegacyReq := ⟨.ok .jtruthyNonDict, .ok [], .unidentified, none, [], false⟩

/-- A small 8-bit array for the tier-2 success witness. -/
def arrC4 : NpArr := ⟨.uint8, [2, 2], [1, 2, 3, 4]⟩

/-- A TIFF upload PIL cannot identify. -/
def tupC4 : TiffUpload := ⟨[1, 2, 3], .unidentified, 3⟩

/-- Convert-tiff request: tier 1 falls through, dependencies available,
tier 2 succeeds with PNG bytes `[7]`. -/
def tReqC4 : TiffReq := ⟨.ok (some tupC4), none, [], true, .ok arrC4, none, none, [7]⟩

/-- A TIFF upload PIL rejects with a generic error. -/
def tupC7 : TiffUpload := ⟨[1, 2], .err "broken", 1⟩

/-- Convert-tiff request falling through to tier 2 with the optional
dependencies unavailable. -/
def tReqC7 : TiffReq := ⟨.ok (some tupC7), none, [], false, .error "nodeps", none, none, []⟩

/-- A degenerate flat (constant-value) non-uint8 array. -/
def arrC5 : NpArr := ⟨.other, [2, 2], [7, 7, 7, 7]⟩

/-- A TIFF upload whose stream PIL leaves at position 2. -/
def tupC10 : TiffUpload := ⟨[9, 8, 7], .err "pil fail", 2⟩

/-- A small 8-bit vector array. -/
def arrC10 : NpArr := ⟨.uint8, [3], [1, 2, 3]⟩

/-- Convert-tiff request reaching tier 2 after PIL consumed two bytes. -/
def tReqC10 : TiffReq := ⟨.ok (some tupC10), none, [], true, .ok arrC10, none, none, [5]⟩

/-! Helper lemmas about `replaceJpg` and the format gate. -/

theorem mem_replaceJpg {a : Char} {l : List Char} (h : a ∈ l) : a ∈ replaceJpg l := by
  induction l using replaceJpg.induct with
  | case1 => simp at h
  | case2 c => simpa [replaceJpg] using h
  | case3 c d => simpa [replaceJpg] using h
  | case4 c d e rest hc ih =>
    rw [replaceJpg, if_pos hc]
    obtain ⟨rfl, rfl, rfl⟩ := hc
    simp only [List.mem_cons] at h ⊢
    rcases h with rfl | rfl | rfl | h
    · tauto
    · tauto
    · tauto
    · exact Or.inr (Or.inr (Or.inr (Or.inr (ih h))))
  | case5 c d e rest hc ih =>
    rw [replaceJpg, if_neg hc]
    simp only [List.mem_cons] at h ⊢
    rcases h with rfl | h
    · tauto
    · exact Or.inr (ih (by simp only [List.mem_cons]; exact h))

theorem replaceJpg_of_no_j {l : List Char} (h : 'j' ∉ l) : replaceJpg l = l := by
  induction l using replaceJpg.induct with
  | case1 => rfl
  | case2 c => rfl
  | case3 c d => rfl
  | case4 c d e rest hc ih =>
    exact absurd (hc.1 ▸ List.mem_cons_self c _) h
  | case5 c d e rest hc ih =>
    rw [replaceJpg, if_neg hc]
    rw [ih fun hj => h (List.mem_cons_of_mem c hj)]

theorem replaceJpg_eq_nil {l : List Char} : replaceJpg l = [] ↔ l = [] := by
  induction l using replaceJpg.induct with
  | case1 => simp [replaceJpg]
  | case2 c => simp [replaceJpg]
  | case3 c d => simp [replaceJpg]
  | case4 c d e rest hc ih => rw [replaceJpg, if_pos hc]; simp
  | case5 c d e rest hc ih => rw [replaceJpg, if_neg hc]; simp

theorem replaceJpg_eq_of_no_j {l tgt : List Char} (ht : 'j' ∉ tgt)
    (h : replaceJpg l = tgt) : l = tgt := by
  have hnj : 'j' ∉ l := fun hj => ht (h ▸ mem_replaceJpg hj)
  rw [replaceJpg_of_no_j hnj] at h
  exact h

theorem replaceJpg_eq_jpeg {l : List Char} (h : replaceJpg l = ['j', 'p', 'e', 'g']) :
    l = ['j', 'p', 'e', 'g'] ∨ l = ['j', 'p', 'g'] := by
  cases l with
  | nil => simp [replaceJpg] at h
  | cons c cs =>
  cases cs with
  | nil => simp [replaceJpg] at h
  | cons d ds =>
  cases ds with
  | nil => simp [replaceJpg] at h
  | cons e es =>
  rw [replaceJpg] at h
  by_cases hc : c = 'j' ∧ d = 'p' ∧ e = 'g'
  · rw [if_pos hc] at h
    obtain ⟨rfl, rfl, rfl⟩ := hc
    have h5 : replaceJpg es = [] := by simpa using h
    have h6 : es = [] := replaceJpg_eq_nil.mp h5
    subst h6
    right; rfl
  · rw [if_neg hc] at h
    injection h with hcj h1
    subst hcj
    cases es with
    | nil => simp [replaceJpg] at h1
    | cons f fs =>
    rw [replaceJpg] at h1
    by_cases hd : d = 'j' ∧ e = 'p' ∧ f = 'g'
    · rw [if_pos hd] at h1
      injection h1 with h2 _
      exact absurd h2 (by decide)
    · rw [if_neg hd] at h1
      injection h1 with hdp h2
      subst hdp
      cases fs with
      | nil =>
        simp only [replaceJpg] at h2
        obtain ⟨rfl, rfl⟩ : e = 'e' ∧ f = 'g' := by simpa using h2
        left; rfl
      | cons g1 gs =>
      rw [replaceJpg] at h2
      by_cases he : e = 'j' ∧ f = 'p' ∧ g1 = 'g'
      · rw [if_pos he] at h2
        injection h2 with h3 _
        exact absurd h3 (by decide)
      · rw [if_neg he] at h2
        injection h2 with hee h3
        subst hee
        cases gs with
        | nil => simp [replaceJpg] at h3
        | cons g2 gs2 =>
        rw [replaceJpg] at h3
        by_cases hf : f = 'j' ∧ g1 = 'p' ∧ g2 = 'g'
        · rw [if_pos hf] at h3
          injection h3 with h4 _
          exact absurd h4 (by decide)
        · rw [if_neg hf] at h3
          injection h3 with hfg h4
          exact absurd (replaceJpg_eq_nil.mp h4) (by simp)

theorem string_mk_eq {m : List Char} {s : String} :
    String.mk m = s ↔ m = s.data := by
  constructor
  · intro h
    exact congrArg String.data h
  · intro h
    cases s with
    | mk d => exact congrArg String.mk h

theorem fmtAllowed_mk {m : List Char} :
    fmtAllowed (String.mk m) = true ↔
      (m = "png".data ∨ m = "jpeg".data ∨ m = "tiff".data ∨ m = "pdf".data) := by
  simp only [fmtAllowed, Bool.or_eq_true, beq_iff_eq, string_mk_eq]
  tauto

theorem replaceJpg_allowed {t : List Char} :
    (replaceJpg t = "png".data ∨ replaceJpg t = "jpeg".data ∨
       replaceJpg t = "tiff".data ∨ replaceJpg t = "pdf".data) ↔
      (t = "png".data ∨ t = "jpeg".data ∨ t = "tiff".data ∨ t = "pdf".data ∨
       t = "jpg".data) := by
  constructor
  · intro h
    rcases h with h | h | h | h
    · exact Or.inl (replaceJpg_eq_of_no_j (by decide) h)
    · have hj : replaceJpg t = ['j', 'p', 'e', 'g'] := h
      rcases replaceJpg_eq_jpeg hj with h2 | h2
      · exact Or.inr (Or.inl h2)
      · exact Or.inr (Or.inr (Or.inr (Or.inr h2)))
    · exact Or.inr (Or.inr (Or.inl (replaceJpg_eq_of_no_j (by decide) h)))
    · exact Or.inr (Or.inr (Or.inr (Or.inl (replaceJpg_eq_of_no_j (by decide) h))))
  · intro h
    rcases h with rfl | rfl | rfl | rfl | rfl
    · exact Or.inl (by decide)
    · exact Or.inr (Or.inl (by decide))
    · exact Or.inr (Or.inr (Or.inl (by decide)))
    · exact Or.inr (Or.inr (Or.inr (by decide)))
    · exact Or.inr (Or.inl (by decide))

/-- C6: the format name from the URL is lower-cased and `jpg` is normalized
to `jpeg`; exactly png, jpeg, tiff, pdf and the jpg alias pass the gate, and
every other format string is answered with a 400 `unsupported format`
response that is independent of the request body (no save call, no log). -/
theorem export_format_gate (format : String) (req : ExportReq) :
    (fmtAllowed (fmtNorm format) = true ↔
       (format.data.map Char.toLower = "png".data ∨
        format.data.map Char.toLower = "jpeg".data ∨
        format.data.map Char.toLower = "tiff".data ∨
        format.data.map Char.toLower = "pdf".data ∨
        format.data.map Char.toLower = "jpg".data))
  ∧ (fmtAllowed (fmtNorm format) = false →
       export_figure format req =
         ⟨.ok (errResp 400 ("unsupported format: " ++ fmtNorm format)), none, []⟩) := by
  constructor
  · rw [fmtNorm, fmtAllowed_mk]
    exact replaceJpg_allowed
  · intro h
    simp only [export_figure, h]
    rfl

/-- Witness for `export_format_gate`: a `gif` export is rejected with 400
before the body is read. -/
theorem export_format_gate_witness :
    export_figure "gif" (.multipart mReqC6) =
      ⟨.ok (errResp 400 "unsupported format: gif"), none, []⟩ := by
  have h := (export_format_gate "gif" (.multipart mReqC6)).2 (by decide)
  exact h.trans rfl

/-! Inversion lemmas: what a recorded save call must look like. -/

theorem multipartBody_call {fmt : String} {r : MultipartReq} {resp : HttpResp}
    {c : SaveCall} {logs : List String}
    (h : multipartBody fmt r = .ok (resp, some c, logs)) :
    ∃ up img0, r.filesImage = .ok (some up) ∧ up.openOutcome = .ok img0 ∧
      c = doSave fmt
            (if img0.mode = "RGBA" ∧ (fmt = "jpeg" ∨ fmt = "tiff" ∨ fmt = "pdf") then
              convertMode img0 "RGB" else img0)
            (max 50 (min 2400 (formInt r.dpiField 600)))
            (if fmt = "jpeg" then max 40 (min 95 (formInt r.qualityField 90)) else 90) := by
  unfold multipartBody at h
  split at h
  · exact absurd h (by simp)
  · exact absurd h (by simp)
  · rename_i up hup
    split at h
    · exact absurd h (by simp)
    · exact absurd h (by simp)
    · rename_i img0 himg
      refine ⟨up, img0, hup, himg, ?_⟩
      repeat' split at h
      all_goals
        simp only [Except.ok.injEq, Prod.mk.injEq, Option.some.injEq] at h
        simp_all
        try (split <;> simp_all)
        try tauto

theorem export_multipart_call {format : String} {m : MultipartReq} {c : SaveCall}
    (h : (export_figure format (.multipart m)).saveCall = some c) :
    ∃ resp logs, multipartBody (fmtNorm format) m = .ok (resp, some c, logs) := by
  simp only [export_figure] at h
  split at h
  · unfold multipartHandler at h
    split at h
    · rename_i resp call logs heq
      simp only at h
      subst h
      exact ⟨resp, logs, heq⟩
    · simp at h
  · simp at h

theorem legacyDict_call {fmt : String} {r : LegacyReq} {url : Option String}
    {dpiF : Option IntParse} {c : SaveCall}
    (h : (legacyDict fmt r url dpiF).saveCall = some c) :
    ∃ u img0, url = some u ∧ r.openOutcome = .ok img0 ∧
      c = doSave fmt
            (if img0.mode = "RGBA" ∧ (fmt = "jpeg" ∨ fmt = "tiff" ∨ fmt = "pdf") then
              convertMode img0 "RGB" else img0)
            (max 50 (min 2400 (formInt dpiF 600))) 95 := by
  unfold legacyDict at h
  split at h
  · exact absurd h (by simp)
  · rename_i u
    split at h
    · exact absurd h (by simp)
    · split at h
      · exact absurd h (by simp)
      · rename_i hb
        split at h
        · exact absurd h (by simp)
        · exact absurd h (by simp)
        · rename_i img0 himg
          refine ⟨u, img0, rfl, himg, ?_⟩
          repeat' split at h
          all_goals
            simp only [Option.some.injEq] at h
            simp_all
            try (split <;> simp_all)
            try tauto

theorem export_legacy_call {format : String} {l : LegacyReq} {c : SaveCall}
    (h : (export_figure format (.legacy l)).saveCall = some c) :
    ∃ u dpiF qF img0, l.jsonBody = .ok (.jdict (some u) dpiF qF) ∧
      l.openOutcome = .ok img0 ∧
      c = doSave (fmtNorm format)
            (if img0.mode = "RGBA" ∧
                (fmtNorm format = "jpeg" ∨ fmtNorm format = "tiff" ∨ fmtNorm format = "pdf") then
              convertMode img0 "RGB" else img0)
            (max 50 (min 2400 (formInt dpiF 600))) 95 := by
  simp only [export_figure] at h
  split at h
  · unfold legacyHandler at h
    split at h
    · simp at h
    · rename_i v hv
      split at h
      · -- jfalsy: data or {} is the empty dict, no canvasDataUrl, no save
        obtain ⟨u, img0, hu, _, _⟩ := legacyDict_call h
        exact absurd hu (by simp)
      · simp at h
      · rename_i url dpiF qF
        obtain ⟨u, img0, hu, himg, hc⟩ := legacyDict_call h
        subst hu
        exact ⟨u, dpiF, qF, img0, hv, himg, hc⟩
  · simp at h

/-! Facts about `doSave`. -/

theorem effDpi_doSave (fmt : String) (img : PILImage) (dpi quality : Int) :
    effDpi (doSave fmt img dpi quality) = some dpi := by
  unfold doSave
  repeat' split
  all_goals rfl

theorem img_doSave (fmt : String) (img : PILImage) (dpi quality : Int) :
    (doSave fmt img dpi quality).img = img := by
  unfold doSave
  repeat' split
  all_goals rfl

theorem quality_doSave_jpeg (img : PILImage) (dpi quality : Int) :
    (doSave "jpeg" img dpi quality).quality = some quality := by
  unfold doSave
  repeat' split
  all_goals simp_all

/-- C2: on both input paths the DPI passed to the encoder is the supplied
value parsed as an integer, with 600 substituted on a parse failure or a
missing value, clamped into [50, 2400]; DPI=10 yields 50, DPI=9999 yields
2400, a non-numeric DPI yields 600. -/
theorem dpi_policy :
    (∀ (format : String) (m : MultipartReq) (c : SaveCall),
       (export_figure format (.multipart m)).saveCall = some c →
       effDpi c = some (max 50 (min 2400 (formInt m.dpiField 600))))
  ∧ (∀ (format : String) (l : LegacyReq) (u : String) (dpiF qF : Option IntParse)
       (c : SaveCall),
       l.jsonBody = .ok (.jdict (some u) dpiF qF) →
       (export_figure format (.legacy l)).saveCall = some c →
       effDpi c = some (max 50 (min 2400 (formInt dpiF 600))))
  ∧ max 50 (min 2400 (formInt (some (.ok 10)) 600)) = 50
  ∧ max 50 (min 2400 (formInt (some (.ok 9999)) 600)) = 2400
  ∧ max 50 (min 2400 (formInt (some .err) 600)) = 600
  ∧ max 50 (min 2400 (formInt none 600)) = 600 := by
  refine ⟨?_, ?_, by decide, by decide, by decide, by decide⟩
  · intro format m c h
    obtain ⟨resp, logs, hbody⟩ := export_multipart_call h
    obtain ⟨up, img0, _, _, hc⟩ := multipartBody_call hbody
    rw [hc, effDpi_doSave]
  · intro format l u dpiF qF c hjson h
    obtain ⟨u2, dpiF2, qF2, img0, hjson2, _, hc⟩ := export_legacy_call h
    rw [hjson] at hjson2
    obtain ⟨h1, h2, h3⟩ : some u = some u2 ∧ dpiF = dpiF2 ∧ qF = qF2 := by
      simpa using hjson2
    subst h2
    rw [hc, effDpi_doSave]

/-- Witness for `dpi_policy`: a multipart export with `dpi=10` encodes at
DPI 50. -/
theorem dpi_policy_witness :
    effDpi callC2 = some (max 50 (min 2400 (formInt (some (.ok 10)) 600))) :=
  dpi_policy.1 "png" mReqC2 callC2 rfl

/-- C1: on both input paths, an RGBA image exported to jpeg, tiff or pdf is
converted to RGB before the encoder is invoked, so the encoder sees an image
without an alpha channel; in every other combination (non-RGBA modes, or
RGBA exported to png) the decoded image object is passed to the encoder
unconverted. -/
theorem rgba_conversion_policy :
    (∀ (format : String) (m : MultipartReq) (up : Upload) (img0 : PILImage)
       (c : SaveCall),
       m.filesImage = .ok (some up) → up.openOutcome = .ok img0 →
       (export_figure format (.multipart m)).saveCall = some c →
       ((img0.mode = "RGBA" ∧
           (fmtNorm format = "jpeg" ∨ fmtNorm format = "tiff" ∨ fmtNorm format = "pdf") →
           c.img = convertMode img0 "RGB" ∧ c.img.mode = "RGB")
      ∧ (¬ (img0.mode = "RGBA" ∧
             (fmtNorm format = "jpeg" ∨ fmtNorm format = "tiff" ∨ fmtNorm format = "pdf")) →
           c.img = img0)))
  ∧ (∀ (format : String) (l : LegacyReq) (u : String) (dpiF qF : Option IntParse)
       (img0 : PILImage) (c : SaveCall),
       l.jsonBody = .ok (.jdict (some u) dpiF qF) → l.openOutcome = .ok img0 →
       (export_figure format (.legacy l)).saveCall = some c →
       ((img0.mode = "RGBA" ∧
           (fmtNorm format = "jpeg" ∨ fmtNorm format = "tiff" ∨ fmtNorm format = "pdf") →
           c.img = convertMode img0 "RGB" ∧ c.img.mode = "RGB")
      ∧ (¬ (img0.mode = "RGBA" ∧
             (fmtNorm format = "jpeg" ∨ fmtNorm format = "tiff" ∨ fmtNorm format = "pdf")) →
           c.img = img0))) := by
  constructor
  · intro format m up img0 c hup himg h
    obtain ⟨resp, logs, hbody⟩ := export_multipart_call h
    obtain ⟨up2, img2, hup2, himg2, hc⟩ := multipartBody_call hbody
    rw [hup] at hup2
    obtain rfl : up = up2 := by simpa using hup2
    rw [himg] at himg2
    obtain rfl : img0 = img2 := by simpa using himg2
    rw [hc, img_doSave]
    constructor
    · intro hcond
      rw [if_pos hcond]
      exact ⟨rfl, rfl⟩
    · intro hcond
      rw [if_neg hcond]
  · intro format l u dpiF qF img0 c hjson himg h
    obtain ⟨u2, dpiF2, qF2, img2, hjson2, himg2, hc⟩ := export_legacy_call h
    rw [himg] at himg2
    obtain rfl : img0 = img2 := by simpa using himg2
    rw [hc, img_doSave]
    constructor
    · intro hcond
      rw [if_pos hcond]
      exact ⟨rfl, rfl⟩
    · intro hcond
      rw [if_neg hcond]

/-- Witness for `rgba_conversion_policy`: an RGBA upload exported as `JPG`
reaches the encoder converted to RGB. -/
theorem rgba_conversion_policy_witness :
    callC1.img = convertMode imgRGBA "RGB" ∧ callC1.img.mode = "RGB" :=
  (rgba_conversion_policy.1 "JPG" mReqC1 upRGBA imgRGBA callC1 rfl rfl rfl).1
    (by constructor
        · rfl
        · left; decide)

/-- C3: a multipart JPEG export encodes at the supplied quality parsed as an
integer, with 90 substituted on parse failure or absence, clamped into
[40, 95]; a legacy data-URL JPEG export always encodes at the fixed quality
95, whatever quality value the JSON body carries. -/
theorem quality_policy :
    (∀ (format : String) (m : MultipartReq) (c : SaveCall),
       fmtNorm format = "jpeg" →
       (export_figure format (.multipart m)).saveCall = some c →
       c.quality = some (max 40 (min 95 (formInt m.qualityField 90))))
  ∧ (∀ (format : String) (l : LegacyReq) (u : String) (dpiF qF : Option IntParse)
       (c : SaveCall),
       fmtNorm format = "jpeg" →
       l.jsonBody = .ok (.jdict (some u) dpiF qF) →
       (export_figure format (.legacy l)).saveCall = some c →
       c.quality = some 95)
  ∧ max 40 (min 95 (formInt (some (.ok 10)) 90)) = 40
  ∧ max 40 (min 95 (formInt (some (.ok 999)) 90)) = 95
  ∧ max 40 (min 95 (formInt (some .err) 90)) = 90
  ∧ max 40 (min 95 (formInt none 90)) = 90 := by
  refine ⟨?_, ?_, by decide, by decide, by decide, by decide⟩
  · intro format m c hfmt h
    obtain ⟨resp, logs, hbody⟩ := export_multipart_call h
    rw [hfmt] at hbody
    obtain ⟨up, img0, _, _, hc⟩ := multipartBody_call hbody
    rw [if_pos rfl] at hc
    rw [hc, quality_doSave_jpeg]
  · intro format l u dpiF qF c hfmt hjson h
    obtain ⟨u2, dpiF2, qF2, img0, hjson2, _, hc⟩ := export_legacy_call h
    rw [hfmt] at hc
    rw [hc, quality_doSave_jpeg]

/-- Witness for `quality_policy`: a multipart JPEG export with `quality=999`
encodes at quality 95 (the clamp's upper bound). -/
theorem quality_policy_witness :
    callC3.quality = some (max 40 (min 95 (formInt (some (.ok 999)) 90))) :=
  quality_policy.1 "jpeg" mReqC3 callC3 (by decide) rfl

/-- C8 (amended): on both input paths an encoder exception `e` yields HTTP
500 with details `save_failed:` followed by the exception's own message, and
a diagnostic record is logged server-side; the returned detail therefore
carries the exception-derived message, not only the short code. -/
theorem save_failure_response :
    (∀ (format : String) (m : MultipartReq) (up : Upload) (img0 : PILImage)
       (e : String),
       fmtAllowed (fmtNorm format) = true →
       m.filesImage = .ok (some up) → up.openOutcome = .ok img0 →
       m.saveExc = some e →
       (export_figure format (.multipart m)).outcome =
         .ok (errResp 500 ("save_failed:" ++ e)) ∧
       (export_figure format (.multipart m)).logs =
         ["Pillow save failed (multipart)"])
  ∧ (∀ (format : String) (l : LegacyReq) (u : String) (dpiF qF : Option IntParse)
       (img0 : PILImage) (bs : Bytes) (e : String),
       fmtAllowed (fmtNorm format) = true →
       l.jsonBody = .ok (.jdict (some u) dpiF qF) →
       ¬ (u.data = [] ∨ ¬ (',' ∈ u.data)) →
       l.b64Outcome = .ok bs → l.openOutcome = .ok img0 →
       l.saveExc = some e →
       (export_figure format (.legacy l)).outcome =
         .ok (errResp 500 ("save_failed:" ++ e)) ∧
       (export_figure format (.legacy l)).logs =
         ["Pillow save failed (legacy)"]) := by
  constructor
  · intro format m up img0 e hfmt hup himg hsave
    simp only [export_figure, hfmt, if_true, multipartHandler, multipartBody,
      hup, himg, hsave]
    constructor <;> first | rfl | trivial
  · intro format l u dpiF qF img0 bs e hfmt hjson hurl hb64 himg hsave
    simp only [export_figure, hfmt, if_true, legacyHandler, hjson, legacyDict,
      hurl, if_neg, hb64, himg, hsave]
    constructor <;> first | rfl | trivial

/-- Witness for `save_failure_response`: a multipart PNG export whose save
raises `boom` answers 500 with details `save_failed:boom` and logs the
failure. -/
theorem save_failure_response_witness :
    (export_figure "png" (.multipart mReqC8)).outcome =
      .ok (errResp 500 ("save_failed:" ++ "boom")) ∧
    (export_figure "png" (.multipart mReqC8)).logs =
      ["Pillow save failed (multipart)"] :=
  save_failure_response.1 "png" mReqC8 upRGB imgRGB "boom" (by decide) rfl rfl rfl

/-- Counterexample to C8 as stated: the detail returned to the caller is
`save_failed:boom`, which is not the bare short code `save_failed` — the
exception-derived message is surfaced to the caller. -/
theorem save_failure_detail_not_short :
    (export_figure "png" (.multipart mReqC8)).outcome =
      .ok (errResp 500 "save_failed:boom")
    ∧ "save_failed:boom" ≠ "save_failed" := by
  constructor
  · rfl
  · decide

/-- C9 (amended): the multipart export path and the convert-tiff path wrap
their bodies in a catch-all that turns any uncaught condition into a 500
with a fixed opaque code (`multipart_unhandled` / `unhandled`); the legacy
data-URL path has no such catch-all — an uncaught exception there (a truthy
non-dict JSON body) escapes the handler instead of producing a response. -/
theorem unhandled_policy :
    (∀ (fmt : String) (m : MultipartReq) (e : String),
       multipartBody fmt m = .error e →
       multipartHandler fmt m =
         ⟨.ok (errResp 500 "multipart_unhandled"), none,
           ["Unhandled multipart export error"]⟩)
  ∧ (∀ (r : TiffReq) (e : String),
       tiffBody r = .error e →
       convert_tiff_to_png r =
         ⟨⟨500, .errOnly "unhandled"⟩, none, ["Unhandled convert-tiff error"]⟩)
  ∧ (∀ (format : String) (l : LegacyReq),
       fmtAllowed (fmtNorm format) = true →
       l.jsonBody = .ok .jtruthyNonDict →
       (export_figure format (.legacy l)).outcome =
         .error "AttributeError: object has no attribute get") := by
  refine ⟨?_, ?_, ?_⟩
  · intro fmt m e h
    simp only [multipartHandler, h]
  · intro r e h
    simp only [convert_tiff_to_png, h]
  · intro format l hfmt hjson
    simp only [export_figure, hfmt, if_true, legacyHandler, hjson]

/-- Witness for `unhandled_policy`: a multipart request whose file fetch
raises is answered with the fixed 500 code. -/
theorem unhandled_policy_witness :
    multipartHandler "png" mReqC9 =
      ⟨.ok (errResp 500 "multipart_unhandled"), none,
        ["Unhandled multipart export error"]⟩ :=
  unhandled_policy.1 "png" mReqC9 "io error" rfl

/-- Counterexample to C9 as stated: on the legacy data-URL path an uncaught
condition does not produce a 500 with an opaque code — the exception
propagates out of the handler, so no HTTP response is built by it. -/
theorem legacy_uncaught_escapes :
    (export_figure "png" (.legacy lReqC9)).outcome =
      .error "AttributeError: object has no attribute get" := rfl

/-- C4: in the TIFF fallback conversion the two decode tiers are tried in
order and the first success wins: a tier-1 success answers
`{ok, format:"png", base64}` without ever invoking the tag-based reader; any
tier-1 exception (unrecognized format or otherwise) falls through to tier 2
(here under available dependencies); a tier-2 success answers the same ok
shape, and any exception inside tier 2 is a final `tiff_decode_failed` 500. -/
theorem tiff_two_tier (r : TiffReq) (up : TiffUpload)
    (hf : r.filesImage = .ok (some up)) :
    (∀ img png, runTier1 r up = .success img png →
       (convert_tiff_to_png r).resp = ⟨200, .okB64 "png" png⟩ ∧
       (convert_tiff_to_png r).tagInput = none)
  ∧ (tier1Falls (runTier1 r up) = true → r.depsAvailable = true →
       ((∀ png, runTier2 r = .ok png →
           (convert_tiff_to_png r).resp = ⟨200, .okB64 "png" png⟩)
      ∧ (∀ e, runTier2 r = .error e →
           (convert_tiff_to_png r).resp = ⟨500, .errOnly "tiff_decode_failed"⟩))) := by
  constructor
  · intro img png hs
    simp [convert_tiff_to_png, tiffBody, hf, hs]
  · intro hfall hdeps
    cases ht : runTier1 r up with
    | success img png =>
      rw [ht] at hfall
      simp [tier1Falls] at hfall
    | fallSilent =>
      constructor
      · intro png h2
        simp [convert_tiff_to_png, tiffBody, hf, ht, tiffFallback, hdeps, h2]
      · intro e h2
        simp [convert_tiff_to_png, tiffBody, hf, ht, tiffFallback, hdeps, h2]
    | fallLog e1 =>
      constructor
      · intro png h2
        simp [convert_tiff_to_png, tiffBody, hf, ht, tiffFallback, hdeps, h2]
      · intro e h2
        simp [convert_tiff_to_png, tiffBody, hf, ht, tiffFallback, hdeps, h2]

/-- Witness for `tiff_two_tier`: a TIFF that PIL cannot identify is decoded
by tier 2 and answered as a PNG. -/
theorem tiff_two_tier_witness :
    (convert_tiff_to_png tReqC4).resp = ⟨200, .okB64 "png" [7]⟩ :=
  (((tiff_two_tier tReqC4 tupC4 rfl).2 rfl rfl).1) [7] rfl

/-- C7 (amended): when the fallback tier is reached and the optional
`numpy`/`tifffile` dependencies are unavailable, the request fails
immediately with HTTP 500, error `tiff_decode_failed` and detail
`server_missing_tifffile`, the tag-based reader is never invoked, and the
missing dependency is logged. -/
theorem missing_dependency_response (r : TiffReq) (up : TiffUpload)
    (hf : r.filesImage = .ok (some up))
    (hfall : tier1Falls (runTier1 r up) = true)
    (hdeps : r.depsAvailable = false) :
    (convert_tiff_to_png r).resp =
      ⟨500, .errBody "tiff_decode_failed" "server_missing_tifffile"⟩
    ∧ (convert_tiff_to_png r).tagInput = none
    ∧ "tifffile or numpy not available for TIFF conversion fallback" ∈
        (convert_tiff_to_png r).logs := by
  cases ht : runTier1 r up with
  | success img png =>
    rw [ht] at hfall
    simp [tier1Falls] at hfall
  | fallSilent =>
    simp [convert_tiff_to_png, tiffBody, hf, ht, tiffFallback, hdeps]
  | fallLog e1 =>
    simp [convert_tiff_to_png, tiffBody, hf, ht, tiffFallback, hdeps]

/-- Witness for `missing_dependency_response`: a concrete fall-through
request with the dependencies unavailable. -/
theorem missing_dependency_response_witness :
    (convert_tiff_to_png tReqC7).resp =
      ⟨500, .errBody "tiff_decode_failed" "server_missing_tifffile"⟩
    ∧ (convert_tiff_to_png tReqC7).tagInput = none :=
  ⟨(missing_dependency_response tReqC7 tupC7 rfl rfl rfl).1,
   (missing_dependency_response tReqC7 tupC7 rfl rfl rfl).2.1⟩

/-- Counterexample to C7 as stated: the error tag actually returned is
`tiff_decode_failed` with detail `server_missing_tifffile`; no field of the
response is the claimed tag `server_missing_dependency`. -/
theorem missing_dependency_tag_differs :
    (convert_tiff_to_png tReqC7).resp.body =
      .errBody "tiff_decode_failed" "server_missing_tifffile"
    ∧ "tiff_decode_failed" ≠ "server_missing_dependency"
    ∧ "server_missing_tifffile" ≠ "server_missing_dependency" :=
  ⟨rfl, by decide, by decide⟩

/-- C10: whenever the fallback tier is reached, the upload stream is
repositioned to offset 0 before the tag-based reader parses it, so whatever
position the primary decode left the stream at, the tag-based reader
receives the complete original byte buffer. -/
theorem tiff_seek_before_tag_read (r : TiffReq) (up : TiffUpload)
    (hf : r.filesImage = .ok (some up))
    (hfall : tier1Falls (runTier1 r up) = true)
    (hdeps : r.depsAvailable = true) :
    (convert_tiff_to_png r).tagInput =
      some (readAll (seekStream (StreamState.mk up.buf up.posAfterPil) 0))
    ∧ readAll (seekStream (StreamState.mk up.buf up.posAfterPil) 0) = up.buf := by
  refine ⟨?_, rfl⟩
  cases ht : runTier1 r up with
  | success img png =>
    rw [ht] at hfall
    simp [tier1Falls] at hfall
  | fallSilent =>
    cases h2 : runTier2 r with
    | ok png => simp [convert_tiff_to_png, tiffBody, hf, ht, tiffFallback, hdeps, h2]
    | error e => simp [convert_tiff_to_png, tiffBody, hf, ht, tiffFallback, hdeps, h2]
  | fallLog e1 =>
    cases h2 : runTier2 r with
    | ok png => simp [convert_tiff_to_png, tiffBody, hf, ht, tiffFallback, hdeps, h2]
    | error e => simp [convert_tiff_to_png, tiffBody, hf, ht, tiffFallback, hdeps, h2]

/-- Witness for `tiff_seek_before_tag_read`: PIL left the stream at position
2, yet the tag-based reader receives all three original bytes. -/
theorem tiff_seek_before_tag_read_witness :
    (convert_tiff_to_png tReqC10).tagInput = some [9, 8, 7] := by
  have h := tiff_seek_before_tag_read tReqC10 tupC10 rfl rfl rfl
  exact h.1.trans (congrArg some h.2)

theorem npMin_le {a : NpArr} {x : ℚ} (hx : x ∈ a.vals) : npMin a ≤ x := by
  unfold npMin
  cases hv : a.vals.min? with
  | none =>
    rw [List.min?_eq_none_iff] at hv
    rw [hv] at hx
    simp at hx
  | some m =>
    simp only [Option.getD_some]
    exact (List.le_min?_iff (fun p q s => le_min_iff) hv).1 le_rfl x hx

theorem le_npMax {a : NpArr} {x : ℚ} (hx : x ∈ a.vals) : x ≤ npMax a := by
  unfold npMax
  cases hv : a.vals.max? with
  | none =>
    rw [List.max?_eq_none_iff] at hv
    rw [hv] at hx
    simp at hx
  | some m =>
    simp only [Option.getD_some]
    exact (List.max?_le_iff (fun p q s => max_le_iff) hv).1 le_rfl x hx

/-- C5: the 8-bit normalization `to_uint8` passes 8-bit unsigned arrays
through unchanged; for any other array, when its minimum equals its maximum
(a flat constant-value image) it returns an all-zero 8-bit buffer of the
same shape rather than dividing by zero, and when the minimum is strictly
below the maximum it rescales every sample linearly onto [0, 255] (min/max
computed across all samples) and quantizes to 8-bit, so every output value
lies in [0, 255]; the clip is inert on the rescaled values. -/
theorem to_uint8_spec (a : NpArr) (hne : a.vals ≠ []) :
    (a.dtype = Dtype.uint8 → to_uint8 a = a)
  ∧ (a.dtype ≠ Dtype.uint8 → npMin a = npMax a →
       to_uint8 a = ⟨Dtype.uint8, a.shape, a.vals.map fun _ => 0⟩)
  ∧ (a.dtype ≠ Dtype.uint8 → npMin a < npMax a →
       (to_uint8 a).dtype = Dtype.uint8 ∧
       (to_uint8 a).shape = a.shape ∧
       (to_uint8 a).vals = a.vals.map
         (fun x => ((⌊(x - npMin a) * (255 / (npMax a - npMin a))⌋ : ℤ) : ℚ)) ∧
       ∀ y ∈ (to_uint8 a).vals, 0 ≤ y ∧ y ≤ 255) := by
  refine ⟨?_, ?_, ?_⟩
  · intro h
    unfold to_uint8
    rw [if_pos h]
  · intro hdt heq
    unfold to_uint8
    rw [if_neg hdt, if_pos (by rw [heq]; exact lt_irrefl _)]
  · intro hdt hlt
    unfold to_uint8
    rw [if_neg hdt, if_neg (not_not_intro hlt)]
    refine ⟨rfl, rfl, ?_, ?_⟩
    · apply List.map_congr_left
      intro x hx
      have h1 : npMin a ≤ x := npMin_le hx
      have h2 : x ≤ npMax a := le_npMax hx
      have hd : (0 : ℚ) < npMax a - npMin a := by linarith
      have hs0 : 0 ≤ (x - npMin a) * (255 / (npMax a - npMin a)) :=
        mul_nonneg (by linarith) (le_of_lt (by positivity))
      have hs255 : (x - npMin a) * (255 / (npMax a - npMin a)) ≤ 255 := by
        have hstep : (x - npMin a) * (255 / (npMax a - npMin a)) ≤
            (npMax a - npMin a) * (255 / (npMax a - npMin a)) :=
          mul_le_mul_of_nonneg_right (by linarith) (by positivity)
        have hcancel : (npMax a - npMin a) * (255 / (npMax a - npMin a)) = 255 := by
          field_simp
        linarith
      rw [max_eq_right hs0, min_eq_right hs255]
    · intro y hy
      simp only [List.mem_map] at hy
      obtain ⟨x, hx, rfl⟩ := hy
      have h0 : (0 : ℚ) ≤
          min 255 (max 0 ((x - npMin a) * (255 / (npMax a - npMin a)))) :=
        le_min (by norm_num) (le_max_left _ _)
      have h255 :
          min 255 (max 0 ((x - npMin a) * (255 / (npMax a - npMin a)))) ≤ 255 :=
        min_le_left _ _
      constructor
      · have hz : (0 : ℤ) ≤
            ⌊min 255 (max 0 ((x - npMin a) * (255 / (npMax a - npMin a))))⌋ :=
          Int.le_floor.mpr (by exact_mod_cast h0)
        exact_mod_cast hz
      · calc ((⌊min 255 (max 0 ((x - npMin a) * (255 / (npMax a - npMin a))))⌋ : ℤ) : ℚ) ≤
              min 255 (max 0 ((x - npMin a) * (255 / (npMax a - npMin a)))) :=
              Int.floor_le _
          _ ≤ 255 := h255

/-- Witness for `to_uint8_spec`: a flat constant-value non-8-bit array comes
back as an all-zero 8-bit buffer of the same shape. -/
theorem to_uint8_spec_witness :
    to_uint8 arrC5 = ⟨Dtype.uint8, [2, 2], [0, 0, 0, 0]⟩ := by
  have h := (to_uint8_spec arrC5 (by decide)).2.1 (by decide) (by decide)
  exact h.trans rfl

end EasyFig
